import Mathlib

/-!
Verification of the Recipe Identity & Synchronization Engine of the
CodeACuisine application.

The definitions below are a shallow embedding of the engine implemented in
`src/app/core/services/generate-recipe-service/generate-recipe.service.ts`
(the consolidated `FirestoreRecipeService`), together with the shared
preference configuration from
`src/app/core/services/state-service/state.service.ts`.  The spread-based
payload builder of
`src/app/core/services/firebase-recipe-service/firebase-recipe.service.ts`
is embedded separately (names carrying the `fb` marker).

Conventions of the embedding:
  * a JavaScript value that may be `undefined`/`null` is an `Option`;
  * an object key that is absent from an object literal is `none`;
  * in-place mutation of the caller recipe object is made explicit: every
    operation returns the updated recipe alongside its result;
  * the Firestore collection is a list of (document id, payload) pairs in
    insertion order; `addDoc` appends and assigns a fresh id; queries
    return the first match in store order; `Timestamp.now()` is a logical
    clock carried by the store.
-/

/-- Unit of measurement attached to an ingredient (recipe.model.ts). -/
structure UnitOfMeasurement where
  name : String
  abbreviation : String
deriving DecidableEq, Repr

/-- One ingredient entry (recipe.model.ts `RecipeIngredient`).  The code
defends against a missing `servingSize` (`?? 0`) and a missing `unit`
(`unit?.`), so both are embedded as `Option`. -/
structure RecipeIngredient where
  servingSize : Option Nat
  unit : Option UnitOfMeasurement
  ingredient : String
deriving DecidableEq, Repr

/-- Raw preference axis value as it may arrive from any source: absent
(`null`/`undefined`), a string, or an array of strings (the defensive
`lower` helper of the service handles all three). -/
inductive RawPref where
  | missing : RawPref
  | str : String → RawPref
  | arr : List String → RawPref
deriving DecidableEq, Repr

/-- Raw preference triple.  An absent preferences object (`?? {}` in the
source) behaves exactly like one whose three axes are all missing, so it
is embedded as the all-missing triple. -/
structure RawPreferences where
  cuisine : RawPref
  cookingTime : RawPref
  dietPreferences : RawPref
deriving DecidableEq, Repr

/-- Nutritional information block (recipe.model.ts). -/
structure NutritionalInformation where
  calories : Int
  proteins : Int
  fats : Int
  carbs : Int
deriving DecidableEq, Repr

/-- One direction step (recipe.model.ts `RecipeStep`). -/
structure RecipeStep where
  order : Nat
  title : String
  description : String
  cook : Nat
deriving DecidableEq, Repr

/-- The two ordered ingredient lists of a recipe. -/
structure IngredientLists where
  yourIngredients : List RecipeIngredient
  extraIngredients : List RecipeIngredient
deriving DecidableEq, Repr

/-- In-memory recipe object (`GeneratedRecipe`).  Fields the engine reads
defensively (`??` / `?.`) are `Option`s; `id`, `likes`, `recipeSignature`,
`createdAt` and `isSeedRecipe` are absent until assigned. -/
structure GeneratedRecipe where
  id : Option String
  title : String
  cookingTimeText : Option String
  cookingTimeMinutes : Option Int
  nutritionalInformation : NutritionalInformation
  preferences : RawPreferences
  cooksAmount : Option Nat
  ingredients : IngredientLists
  directions : List RecipeStep
  likes : Option Int
  recipeSignature : Option String
  isSeedRecipe : Option Bool
  createdAt : Option Nat
deriving DecidableEq, Repr

/-- Leading and trailing whitespace removal on a character list. -/
def trimChars (l : List Char) : List Char :=
  ((l.dropWhile Char.isWhitespace).reverse.dropWhile Char.isWhitespace).reverse

/-- JavaScript `String.prototype.trim`: removes leading and trailing
whitespace.  Implemented structurally on the character list so that the
kernel can evaluate it. -/
def jsTrim (s : String) : String :=
  ⟨trimChars s.data⟩

/-- JavaScript `String.prototype.toLowerCase` on the character range used
by the application: each character is lower-cased. -/
def jsToLower (s : String) : String :=
  ⟨s.data.map Char.toLower⟩

/-- The defensive `lower` helper of the service applied to a plain string:
trim, then lower-case. -/
def jsLowerStr (s : String) : String :=
  jsToLower (jsTrim s)

/-- The defensive `lower` helper of the service: arrays use their first
element (empty string when the array is empty), `null`/`undefined` becomes
the empty string, strings are trimmed and lower-cased. -/
def jsLower (v : RawPref) : String :=
  match v with
  | .missing => ""
  | .str s => jsLowerStr s
  | .arr l => jsLowerStr (l.head?.getD "")

/-- Cuisine option names of `StateService.preferencesOptions.cuisine`. -/
def cuisineOptionNames : List String :=
  ["german", "italian", "indian", "japanese", "gourmet", "fusion"]

/-- Cooking-time option values of `StateService.preferencesOptions.times`. -/
def timeOptionValues : List String :=
  ["quick", "medium", "complex"]

/-- Diet options of `StateService.preferencesOptions.dietPreferences`. -/
def dietPreferenceOptions : List String :=
  ["vegetarian", "vegan", "keto", "no preferences"]

/-- Allowed cuisine set: option names passed through `lower`. -/
def allowedCuisines : List String :=
  cuisineOptionNames.map jsLowerStr

/-- Allowed diet preference set: options passed through `lower`. -/
def allowedDietPreferences : List String :=
  dietPreferenceOptions.map jsLowerStr

/-- Allowed cooking time set: option values passed through `lower`. -/
def allowedCookingTimes : List String :=
  timeOptionValues.map jsLowerStr

/-- Default cuisine (`defaultCuisine` of the service): `fusion` when
allowed, otherwise the first allowed value, with `fusion` as the final
fallback for an empty configuration. -/
def defaultCuisine : String :=
  if allowedCuisines.contains "fusion" then "fusion"
  else
    let first := jsLowerStr (cuisineOptionNames.head?.getD "")
    if first = "" then "fusion" else first

/-- Default diet preference (`defaultDietPreference` of the service). -/
def defaultDietPreference : String :=
  if allowedDietPreferences.contains "no preferences" then "no preferences"
  else
    let first := jsLowerStr (dietPreferenceOptions.head?.getD "")
    if first = "" then "no preferences" else first

/-- Default cooking time (`defaultCookingTime` of the service). -/
def defaultCookingTime : String :=
  if allowedCookingTimes.contains "quick" then "quick"
  else
    let first := jsLowerStr (timeOptionValues.head?.getD "")
    if first = "" then "quick" else first

/-- Canonical preference triple (the values stored and signed). -/
structure CanonPreferences where
  cuisine : String
  cookingTime : String
  dietPreferences : String
deriving DecidableEq, Repr

/-- Embedding of `canonicalPreferences`: each axis is lower-cased and
trimmed; a value outside its allowed set is replaced by that axis
default. -/
def canonicalPreferences (input : RawPreferences) : CanonPreferences :=
  let cuisine := jsLower input.cuisine
  let cookingTime := jsLower input.cookingTime
  let diet := jsLower input.dietPreferences
  { cuisine := if allowedCuisines.contains cuisine then cuisine else defaultCuisine
    cookingTime :=
      if allowedCookingTimes.contains cookingTime then cookingTime else defaultCookingTime
    dietPreferences :=
      if allowedDietPreferences.contains diet then diet else defaultDietPreference }

/-- JavaScript truthiness chain `unit?.abbreviation || unit?.name || ''`:
the abbreviation when non-empty, else the name when non-empty, else the
empty string (also when the unit itself is absent). -/
def ingredientUnitString (u : Option UnitOfMeasurement) : String :=
  match u with
  | none => ""
  | some uom =>
    if uom.abbreviation ≠ "" then uom.abbreviation
    else if uom.name ≠ "" then uom.name
    else ""

/-- Embedding of `normalizeIngredient` of the generate-recipe service:
lower-cased trimmed name, serving size defaulted to 0, and the unit
string passed through `lower` (trimmed and lower-cased). -/
def normalizeIngredient (i : RecipeIngredient) : String :=
  let name := jsLowerStr i.ingredient
  let size := i.servingSize.getD 0
  let uStr := jsLowerStr (ingredientUnitString i.unit)
  name ++ "|" ++ toString size ++ "|" ++ uStr

/-- Lexicographic order on character lists by code point, the comparison
underlying the default JavaScript `Array.prototype.sort` on strings.
Implemented structurally so the kernel can evaluate it. -/
def charListLe : List Char → List Char → Bool
  | [], _ => true
  | _ :: _, [] => false
  | a :: as, b :: bs =>
    if a < b then true
    else if b < a then false
    else charListLe as bs

/-- Lexicographic string comparison as a proposition. -/
def strLeR (s t : String) : Prop :=
  charListLe s.data t.data = true

instance : DecidableRel strLeR :=
  fun s t => inferInstanceAs (Decidable (charListLe s.data t.data = true))

theorem charListLe_total : ∀ as bs : List Char, charListLe as bs = true ∨ charListLe bs as = true
  | [], _ => Or.inl rfl
  | _ :: _, [] => Or.inr rfl
  | a :: as, b :: bs => by
    by_cases hab : a < b
    · exact Or.inl (by simp [charListLe, hab])
    · by_cases hba : b < a
      · exact Or.inr (by simp [charListLe, hba])
      · rcases charListLe_total as bs with h | h
        · exact Or.inl (by simp [charListLe, hab, hba, h])
        · exact Or.inr (by simp [charListLe, hab, hba, h])

theorem charListLe_trans :
    ∀ as bs cs : List Char,
      charListLe as bs = true → charListLe bs cs = true → charListLe as cs = true
  | [], _, _, _, _ => rfl
  | a :: as, [], cs, h₁, _ => by simp [charListLe] at h₁
  | a :: as, b :: bs, [], _, h₂ => by simp [charListLe] at h₂
  | a :: as, b :: bs, c :: cs, h₁, h₂ => by
    by_cases hab : a < b
    · by_cases hbc : b < c
      · simp [charListLe, lt_trans hab hbc]
      · by_cases hcb : c < b
        · simp [charListLe, hbc, hcb] at h₂
        · have hbc' : b = c := le_antisymm (le_of_not_lt hcb) (le_of_not_lt hbc)
          simp [charListLe, hbc' ▸ hab]
    · by_cases hba : b < a
      · simp [charListLe, hab, hba] at h₁
      · have hab' : a = b := le_antisymm (le_of_not_lt hba) (le_of_not_lt hab)
        subst hab'
        by_cases hac : a < c
        · simp [charListLe, hac]
        · by_cases hca : c < a
          · simp [charListLe, hac, hca] at h₂
          · simp [charListLe, hab, hac, hca] at h₁ h₂ ⊢
            exact charListLe_trans as bs cs h₁ h₂

theorem charListLe_antisymm :
    ∀ as bs : List Char, charListLe as bs = true → charListLe bs as = true → as = bs
  | [], [], _, _ => rfl
  | [], _ :: _, _, h₂ => by simp [charListLe] at h₂
  | _ :: _, [], h₁, _ => by simp [charListLe] at h₁
  | a :: as, b :: bs, h₁, h₂ => by
    by_cases hab : a < b
    · simp [charListLe, hab, asymm hab] at h₂
    · by_cases hba : b < a
      · simp [charListLe, hab, hba] at h₁
      · have hab' : a = b := le_antisymm (le_of_not_lt hba) (le_of_not_lt hab)
        subst hab'
        simp [charListLe, hab, hba] at h₁ h₂
        exact congrArg (a :: ·) (charListLe_antisymm as bs h₁ h₂)

instance : IsTotal String strLeR :=
  ⟨fun s t => charListLe_total s.data t.data⟩

instance : IsTrans String strLeR :=
  ⟨fun s t u => charListLe_trans s.data t.data u.data⟩

instance : IsAntisymm String strLeR :=
  ⟨fun s t h₁ h₂ => by
    cases s; cases t
    exact congrArg String.mk (charListLe_antisymm _ _ h₁ h₂)⟩

/-- Sorting a string list: `List.insertionSort` with the lexicographic
order computes the sorted permutation, which is what the default
JavaScript `Array.prototype.sort` returns on an array of strings. -/
def sortStrings (l : List String) : List String :=
  l.insertionSort strLeR

/-- Sorting is invariant under permutation of its input: the sorted
permutation of a list is unique for a total antisymmetric order. -/
theorem sortStrings_congr {l₁ l₂ : List String} (h : l₁.Perm l₂) :
    sortStrings l₁ = sortStrings l₂ :=
  List.eq_of_perm_of_sorted
    (((List.perm_insertionSort strLeR l₁).trans h).trans
      (List.perm_insertionSort strLeR l₂).symm)
    (List.sorted_insertionSort strLeR l₁)
    (List.sorted_insertionSort strLeR l₂)

/-- Embedding of `buildIngredientsKey`: both ingredient lists are
concatenated, each entry normalized, the fragments sorted
lexicographically and joined with a semicolon. -/
def buildIngredientsKey (r : GeneratedRecipe) : String :=
  let yours := r.ingredients.yourIngredients
  let extras := r.ingredients.extraIngredients
  String.intercalate ";" (sortStrings ((yours ++ extras).map normalizeIngredient))

/-- Embedding of `buildRecipeSignature` of the generate-recipe service:
canonical preferences, normalized title, cooks amount and ingredient key
joined in fixed order with a double bar. -/
def buildRecipeSignature (r : GeneratedRecipe) : String :=
  let prefs := canonicalPreferences r.preferences
  let title := jsLowerStr r.title
  let cooks := toString (r.cooksAmount.getD 0)
  let ingredientsKey := buildIngredientsKey r
  title ++ "||" ++ prefs.cuisine ++ "||" ++ prefs.cookingTime ++ "||" ++
    prefs.dietPreferences ++ "||" ++ cooks ++ "||" ++ ingredientsKey

/-- Embedding of `getOrCreateSignature`.  A truthy cached signature (a
non-empty string) is returned unchanged; otherwise the signature is
computed and written onto the recipe object.  The updated recipe is
returned explicitly since the source mutates its argument. -/
def getOrCreateSignature (r : GeneratedRecipe) : String × GeneratedRecipe :=
  let cached := r.recipeSignature.getD ""
  if cached ≠ "" then (cached, r)
  else
    let s := buildRecipeSignature r
    (s, { r with recipeSignature := some s })

/-- Upsert options object (`{ isSeed?: boolean }`). -/
structure UpsertOptions where
  isSeed : Option Bool
deriving DecidableEq, Repr

/-- JavaScript `options?.isSeed ?? false`. -/
def optIsSeed (opts : Option UpsertOptions) : Bool :=
  (opts.bind (fun o => o.isSeed)).getD false

/-- Document payload as stored in the Firestore `recipes` collection.
The explicit builder of the generate-recipe service never emits an `id`
key (embedded as `none`); the spread-based builder of the firebase
service copies whatever `id` the in-memory recipe carries.  A stored
document may also lack a `likes` field, which the readers default to 0
(`existing.likes ?? 0`), hence `likes : Option Int`. -/
structure RecipePayload where
  id : Option String
  title : String
  cookingTimeText : Option String
  cookingTimeMinutes : Option Int
  cooksAmount : Option Nat
  nutritionalInformation : NutritionalInformation
  preferences : RawPreferences
  ingredients : IngredientLists
  directions : List RecipeStep
  recipeSignature : String
  likes : Option Int
  isSeedRecipe : Bool
  createdAt : Nat
deriving DecidableEq, Repr

/-- Canonical preferences as they appear inside a stored document: a
plain string per axis. -/
def CanonPreferences.toRaw (c : CanonPreferences) : RawPreferences :=
  { cuisine := .str c.cuisine
    cookingTime := .str c.cookingTime
    dietPreferences := .str c.dietPreferences }

/-- Abstract recipe store: the documents of the `recipes` collection in
insertion order, a counter producing fresh document ids, and a logical
clock standing in for `Timestamp.now()`. -/
structure RecipeStore where
  docs : List (String × RecipePayload)
  nextId : Nat
  clock : Nat
deriving DecidableEq, Repr

/-- The empty collection. -/
def emptyStore : RecipeStore :=
  { docs := [], nextId := 0, clock := 0 }

/-- Document id assigned by the next `addDoc` call. -/
def freshId (st : RecipeStore) : String :=
  "doc" ++ toString st.nextId

/-- Embedding of `findBySignature`: equality query on `recipeSignature`,
returning the first matching document in store order. -/
def findBySignature (st : RecipeStore) (signature : String) : Option (String × RecipePayload) :=
  st.docs.find? (fun d => d.2.recipeSignature = signature)

/-- Embedding of `buildRecipePayload` of the generate-recipe service: an
explicit field list with canonicalized preferences and no `id` key. -/
def buildRecipePayload (r : GeneratedRecipe) (signature : String) (likes : Int)
    (opts : Option UpsertOptions) (now : Nat) : RecipePayload :=
  let prefs := canonicalPreferences r.preferences
  { id := none
    title := r.title
    cookingTimeText := some (r.cookingTimeText.getD "")
    cookingTimeMinutes := r.cookingTimeMinutes
    cooksAmount := r.cooksAmount
    nutritionalInformation := r.nutritionalInformation
    preferences := prefs.toRaw
    ingredients := r.ingredients
    directions := r.directions
    recipeSignature := signature
    likes := some likes
    isSeedRecipe := optIsSeed opts
    createdAt := now }

/-- Embedding of `createRecipeDoc`: builds the payload and appends it to
the collection under a fresh document id. -/
def createRecipeDoc (r : GeneratedRecipe) (signature : String) (likes : Int)
    (opts : Option UpsertOptions) (st : RecipeStore) : String × RecipeStore :=
  let payload := buildRecipePayload r signature likes opts st.clock
  let docId := freshId st
  (docId,
    { docs := st.docs ++ [(docId, payload)], nextId := st.nextId + 1, clock := st.clock + 1 })

/-- Conversion of a document snapshot to a recipe object, embedding the
source pattern of building an object from the document id and then
spreading the document data over it: a (stale) `id` field stored inside
the data overrides the snapshot id, exactly as the spread does. -/
def docToRecipe (docId : String) (p : RecipePayload) : GeneratedRecipe :=
  { id := some (p.id.getD docId)
    title := p.title
    cookingTimeText := p.cookingTimeText
    cookingTimeMinutes := p.cookingTimeMinutes
    nutritionalInformation := p.nutritionalInformation
    preferences := p.preferences
    cooksAmount := p.cooksAmount
    ingredients := p.ingredients
    directions := p.directions
    likes := p.likes
    recipeSignature := some p.recipeSignature
    isSeedRecipe := some p.isSeedRecipe
    createdAt := some p.createdAt }

/-- Result of `ensureRecipeInCookbook`: the returned recipe object, the
caller recipe after in-place mutation, and the new store state. -/
structure EnsureResult where
  out : GeneratedRecipe
  recipeAfter : GeneratedRecipe
  store : RecipeStore
deriving DecidableEq, Repr

/-- Embedding of `ensureRecipeInCookbook`: compute or reuse the
signature, look the signature up, and either merge the existing document
identity into a copy of the incoming recipe (`mergeExistingRecipe`) or
create a new document. -/
def ensureRecipeInCookbook (r : GeneratedRecipe) (opts : Option UpsertOptions)
    (st : RecipeStore) : EnsureResult :=
  let signature := (getOrCreateSignature r).1
  let r1 := (getOrCreateSignature r).2
  match findBySignature st signature with
  | some (docId, p) =>
    let existingId := p.id.getD docId
    let likes := p.likes.getD 0
    { out :=
        { r1 with
          id := some existingId
          recipeSignature := some signature
          likes := some likes }
      recipeAfter := r1
      store := st }
  | none =>
    let likes := r.likes.getD 0
    let docId := (createRecipeDoc r1 signature likes opts st).1
    let st1 := (createRecipeDoc r1 signature likes opts st).2
    { out :=
        { r1 with
          id := some docId
          recipeSignature := some signature
          likes := some likes }
      recipeAfter := r1
      store := st1 }

/-- Embedding of `syncGeneratedRecipes`: sequential fold over the input
list, one `ensureRecipeInCookbook` call per item with `isSeed := false`,
results collected in input order.  The second component collects the
(possibly mutated) caller objects, the third is the final store. -/
def syncGeneratedRecipes :
    List GeneratedRecipe → RecipeStore →
      List GeneratedRecipe × List GeneratedRecipe × RecipeStore
  | [], st => ([], [], st)
  | r :: rs, st =>
    let e := ensureRecipeInCookbook r (some { isSeed := some false }) st
    let rest := syncGeneratedRecipes rs e.store
    (e.out :: rest.1, e.recipeAfter :: rest.2.1, rest.2.2)

/-- Embedding of `likesDelta`. -/
def likesDelta (isFavorite : Bool) : Int :=
  if isFavorite then 1 else -1

/-- Firestore `updateDoc(ref, \x7b likes: increment(delta) \x7d)`: a
server-side atomic add on the `likes` field of the addressed document; a
missing field counts as 0. -/
def incrementLikes (st : RecipeStore) (docId : String) (delta : Int) : RecipeStore :=
  { st with
    docs := st.docs.map (fun d =>
      if d.1 = docId then (d.1, { d.2 with likes := some (d.2.likes.getD 0 + delta) })
      else d) }

/-- Result of `updateLikesForRecipe`: the advisory likes value returned
to the caller, the caller recipe after in-place mutation, and the new
store state. -/
structure LikesResult where
  likes : Int
  recipeAfter : GeneratedRecipe
  store : RecipeStore
deriving DecidableEq, Repr

/-- Embedding of `createLikedRecipe`: creates the document with initial
likes 1 (favorite) or 0 (unfavorite), writes the new document id onto
the caller recipe, and returns the initial likes value. -/
def createLikedRecipe (r : GeneratedRecipe) (signature : String) (isFavorite : Bool)
    (st : RecipeStore) : LikesResult :=
  let likes : Int := if isFavorite then 1 else 0
  let docId := (createRecipeDoc r signature likes (some { isSeed := some false }) st).1
  let st1 := (createRecipeDoc r signature likes (some { isSeed := some false }) st).2
  { likes := likes, recipeAfter := { r with id := some docId }, store := st1 }

/-- Embedding of `updateExistingLikes`: computes the clamped advisory
value and issues the unclamped atomic increment. -/
def updateExistingLikes (existingId : String) (currentLikes : Int) (delta : Int)
    (st : RecipeStore) : Int × RecipeStore :=
  let next := max (currentLikes + delta) 0
  (next, incrementLikes st existingId delta)

/-- Embedding of `updateLikesForRecipe`. -/
def updateLikesForRecipe (r : GeneratedRecipe) (isFavorite : Bool)
    (st : RecipeStore) : LikesResult :=
  let signature := (getOrCreateSignature r).1
  let r1 := (getOrCreateSignature r).2
  let delta := likesDelta isFavorite
  match findBySignature st signature with
  | none => createLikedRecipe r1 signature isFavorite st
  | some (docId, p) =>
    let currentLikes := p.likes.getD 0
    let existingId := p.id.getD docId
    let next := (updateExistingLikes existingId currentLikes delta st).1
    let st1 := (updateExistingLikes existingId currentLikes delta st).2
    { likes := next, recipeAfter := r1, store := st1 }

/-- Embedding of `getRecipeById`: direct document lookup, `none` when the
document does not exist. -/
def getRecipeById (st : RecipeStore) (docId : String) : Option GeneratedRecipe :=
  (st.docs.find? (fun d => d.1 = docId)).map (fun d => docToRecipe d.1 d.2)

/-!
Spread-based payload builder of
`src/app/core/services/firebase-recipe-service/firebase-recipe.service.ts`.
That builder spreads the whole in-memory recipe into the payload and then
overrides `recipeSignature`, `likes`, `isSeedRecipe` and `createdAt`; in
particular an `id` carried by the recipe object ends up inside the stored
payload, and the preferences are stored raw, not canonicalized. -/

/-- Embedding of `buildRecipePayload` of the firebase recipe service. -/
def fbBuildRecipePayload (r : GeneratedRecipe) (signature : String) (likes : Int)
    (opts : Option UpsertOptions) (now : Nat) : RecipePayload :=
  { id := r.id
    title := r.title
    cookingTimeText := r.cookingTimeText
    cookingTimeMinutes := r.cookingTimeMinutes
    cooksAmount := r.cooksAmount
    nutritionalInformation := r.nutritionalInformation
    preferences := r.preferences
    ingredients := r.ingredients
    directions := r.directions
    recipeSignature := signature
    likes := some likes
    isSeedRecipe := optIsSeed opts
    createdAt := now }

/-- Embedding of `createRecipeDoc` of the firebase recipe service (same
shape as the generate-recipe one, but over the spread payload). -/
def fbCreateRecipeDoc (r : GeneratedRecipe) (signature : String) (likes : Int)
    (opts : Option UpsertOptions) (st : RecipeStore) : String × RecipeStore :=
  let payload := fbBuildRecipePayload r signature likes opts st.clock
  let docId := freshId st
  (docId,
    { docs := st.docs ++ [(docId, payload)], nextId := st.nextId + 1, clock := st.clock + 1 })

example :
    jsLower (.str "  FRENCH ") = "french" := by decide

example :
    (canonicalPreferences ⟨.str "FRENCH", .missing, .missing⟩).cuisine = "fusion" := by
  decide

example :
    normalizeIngredient ⟨some 200, some ⟨"Gramm", "G"⟩, " Tomato"⟩ = "tomato|200|g" := by
  decide

/-!
Shared congruence lemmas about the signature computation.
-/

/-- Canonicalization only depends on the lower-cased trimmed axis values. -/
theorem canonicalPreferences_congr {p q : RawPreferences}
    (hc : jsLower p.cuisine = jsLower q.cuisine)
    (ht : jsLower p.cookingTime = jsLower q.cookingTime)
    (hd : jsLower p.dietPreferences = jsLower q.dietPreferences) :
    canonicalPreferences p = canonicalPreferences q := by
  simp only [canonicalPreferences, hc, ht, hd]

/-- The ingredient key only depends on the multiset of combined
ingredient entries. -/
theorem buildIngredientsKey_congr {a b : GeneratedRecipe}
    (h : (a.ingredients.yourIngredients ++ a.ingredients.extraIngredients).Perm
         (b.ingredients.yourIngredients ++ b.ingredients.extraIngredients)) :
    buildIngredientsKey a = buildIngredientsKey b := by
  unfold buildIngredientsKey
  exact congrArg (String.intercalate ";") (sortStrings_congr (h.map normalizeIngredient))

/-- The signature only depends on the normalized title, the normalized
preference axis values, the cooks amount and the combined ingredient
multiset. -/
theorem buildRecipeSignature_eq_of {a b : GeneratedRecipe}
    (htitle : jsLowerStr a.title = jsLowerStr b.title)
    (hc : jsLower a.preferences.cuisine = jsLower b.preferences.cuisine)
    (ht : jsLower a.preferences.cookingTime = jsLower b.preferences.cookingTime)
    (hd : jsLower a.preferences.dietPreferences = jsLower b.preferences.dietPreferences)
    (hcooks : a.cooksAmount = b.cooksAmount)
    (hing : (a.ingredients.yourIngredients ++ a.ingredients.extraIngredients).Perm
            (b.ingredients.yourIngredients ++ b.ingredients.extraIngredients)) :
    buildRecipeSignature a = buildRecipeSignature b := by
  simp only [buildRecipeSignature, htitle, hcooks,
    canonicalPreferences_congr hc ht hd, buildIngredientsKey_congr hing]

/-!
Concrete recipes used as witnesses for the claims (Scenario A of the
specification and variations of it).
-/

/-- Unit of measurement gram with the lower-case abbreviation. -/
def gramUnit : UnitOfMeasurement := ⟨"Gramm", "g"⟩

/-- Tomato ingredient of Scenario A. -/
def tomatoIngredient : RecipeIngredient := ⟨some 200, some gramUnit, "tomato"⟩

/-- Pasta ingredient of Scenario A. -/
def pastaIngredient : RecipeIngredient := ⟨some 150, some gramUnit, "pasta"⟩

/-- Preference triple used by the witness recipes. -/
def italianPrefs : RawPreferences := ⟨.str "italian", .str "quick", .str "no preferences"⟩

/-- Nutrition block used by the witness recipes. -/
def witnessNutrition : NutritionalInformation := ⟨520, 18, 9, 84⟩

/-- First Tomato Pasta recipe of Scenario A. -/
def tomatoPastaFirst : GeneratedRecipe :=
  { id := none
    title := "Tomato Pasta"
    cookingTimeText := some "20 min"
    cookingTimeMinutes := some 20
    nutritionalInformation := witnessNutrition
    preferences := italianPrefs
    cooksAmount := some 2
    ingredients := ⟨[tomatoIngredient, pastaIngredient], []⟩
    directions := []
    likes := none
    recipeSignature := none
    isSeedRecipe := none
    createdAt := none }

/-- Second Tomato Pasta recipe of Scenario A: the ingredient list is the
reversal of the first one. -/
def tomatoPastaReversed : GeneratedRecipe :=
  { tomatoPastaFirst with ingredients := ⟨[pastaIngredient, tomatoIngredient], []⟩ }

/-- C1: the signature computation returns the same string for any two
inputs whose combined ingredient multiset is identical and whose title
and preference strings agree up to letter case and leading or trailing
whitespace; the cooks amount is kept fixed. -/
theorem signature_invariant_under_reorder_and_case
    (a b : GeneratedRecipe)
    (htitle : jsLowerStr a.title = jsLowerStr b.title)
    (hcuisine : jsLower a.preferences.cuisine = jsLower b.preferences.cuisine)
    (htime : jsLower a.preferences.cookingTime = jsLower b.preferences.cookingTime)
    (hdiet : jsLower a.preferences.dietPreferences = jsLower b.preferences.dietPreferences)
    (hcooks : a.cooksAmount = b.cooksAmount)
    (hing : (a.ingredients.yourIngredients ++ a.ingredients.extraIngredients).Perm
            (b.ingredients.yourIngredients ++ b.ingredients.extraIngredients)) :
    buildRecipeSignature a = buildRecipeSignature b :=
  buildRecipeSignature_eq_of htitle hcuisine htime hdiet hcooks hing

/-- Witness for C1: the two Tomato Pasta recipes of Scenario A, whose
ingredient lists are reversals of each other, produce the same
signature. -/
theorem signature_invariant_under_reorder_and_case_witness :
    (jsLowerStr tomatoPastaFirst.title = jsLowerStr tomatoPastaReversed.title ∧
      jsLower tomatoPastaFirst.preferences.cuisine =
        jsLower tomatoPastaReversed.preferences.cuisine ∧
      jsLower tomatoPastaFirst.preferences.cookingTime =
        jsLower tomatoPastaReversed.preferences.cookingTime ∧
      jsLower tomatoPastaFirst.preferences.dietPreferences =
        jsLower tomatoPastaReversed.preferences.dietPreferences ∧
      tomatoPastaFirst.cooksAmount = tomatoPastaReversed.cooksAmount ∧
      (tomatoPastaFirst.ingredients.yourIngredients ++
          tomatoPastaFirst.ingredients.extraIngredients).Perm
        (tomatoPastaReversed.ingredients.yourIngredients ++
          tomatoPastaReversed.ingredients.extraIngredients)) ∧
    buildRecipeSignature tomatoPastaFirst = buildRecipeSignature tomatoPastaReversed :=
  ⟨⟨by decide, by decide, by decide, by decide, by decide, by decide⟩,
    signature_invariant_under_reorder_and_case tomatoPastaFirst tomatoPastaReversed
      (by decide) (by decide) (by decide) (by decide) (by decide) (by decide)⟩

/-- C8: the signature is a pure function of title, preferences, cooks
amount and the ingredient lists; recipes that agree on these fields get
the same signature no matter how their `id`, `likes`, `createdAt` and
`isSeedRecipe` fields differ (those fields are not constrained at all by
the hypotheses). -/
theorem signature_independent_of_identity_fields
    (a b : GeneratedRecipe)
    (htitle : a.title = b.title)
    (hprefs : a.preferences = b.preferences)
    (hcooks : a.cooksAmount = b.cooksAmount)
    (hing : a.ingredients = b.ingredients) :
    buildRecipeSignature a = buildRecipeSignature b :=
  buildRecipeSignature_eq_of
    (by rw [htitle]) (by rw [hprefs]) (by rw [hprefs]) (by rw [hprefs]) hcooks
    (by rw [hing])

/-- Witness for C8: a recipe and a copy with different `id`, `likes`,
`createdAt` and `isSeedRecipe` receive the same signature. -/
theorem signature_independent_of_identity_fields_witness :
    (tomatoPastaFirst.title =
        ({ tomatoPastaFirst with
            id := some "someDoc", likes := some 7,
            createdAt := some 99, isSeedRecipe := some true } : GeneratedRecipe).title ∧
      tomatoPastaFirst.preferences =
        ({ tomatoPastaFirst with
            id := some "someDoc", likes := some 7,
            createdAt := some 99, isSeedRecipe := some true } : GeneratedRecipe).preferences ∧
      tomatoPastaFirst.cooksAmount =
        ({ tomatoPastaFirst with
            id := some "someDoc", likes := some 7,
            createdAt := some 99, isSeedRecipe := some true } : GeneratedRecipe).cooksAmount ∧
      tomatoPastaFirst.ingredients =
        ({ tomatoPastaFirst with
            id := some "someDoc", likes := some 7,
            createdAt := some 99, isSeedRecipe := some true } : GeneratedRecipe).ingredients) ∧
    buildRecipeSignature tomatoPastaFirst =
      buildRecipeSignature
        { tomatoPastaFirst with
          id := some "someDoc", likes := some 7,
          createdAt := some 99, isSeedRecipe := some true } :=
  ⟨⟨by decide, by decide, by decide, by decide⟩,
    signature_independent_of_identity_fields tomatoPastaFirst
      { tomatoPastaFirst with
        id := some "someDoc", likes := some 7,
        createdAt := some 99, isSeedRecipe := some true }
      (by decide) (by decide) (by decide) (by decide)⟩

/-!
Claim C4 compares the implemented signature against the formula given by
the specification text.  The next definitions follow the words of the
claim; the implemented pipeline is `buildRecipeSignature` above.
-/

/-- Ingredient fragment exactly as the claim words it: lower-cased
trimmed name, serving size or 0, and the unit abbreviation, or the unit
name, or the empty string — the unit part taken verbatim. -/
def claimIngredientFragment (i : RecipeIngredient) : String :=
  jsLowerStr i.ingredient ++ "|" ++ toString (i.servingSize.getD 0) ++ "|" ++
    ingredientUnitString i.unit

/-- Ingredient key as the claim words it: concatenate both lists, build
the fragments, sort lexicographically, join with a semicolon. -/
def claimIngredientsKey (r : GeneratedRecipe) : String :=
  String.intercalate ";"
    (sortStrings
      ((r.ingredients.yourIngredients ++ r.ingredients.extraIngredients).map
        claimIngredientFragment))

/-- Signature as the claim words it: fixed-order double-bar join of the
normalized title, the canonical preference values, the cooks amount as a
string, and the claim ingredient key. -/
def claimSignature (r : GeneratedRecipe) : String :=
  let prefs := canonicalPreferences r.preferences
  jsLowerStr r.title ++ "||" ++ prefs.cuisine ++ "||" ++ prefs.cookingTime ++ "||" ++
    prefs.dietPreferences ++ "||" ++ toString (r.cooksAmount.getD 0) ++ "||" ++
    claimIngredientsKey r

/-- Ingredient fragment as the code actually builds it: the unit string
is additionally passed through the `lower` helper, so it is trimmed and
lower-cased (amended version of the claim fragment). -/
def amendedIngredientFragment (i : RecipeIngredient) : String :=
  jsLowerStr i.ingredient ++ "|" ++ toString (i.servingSize.getD 0) ++ "|" ++
    jsLowerStr (ingredientUnitString i.unit)

/-- Ingredient key built from the amended fragments. -/
def amendedIngredientsKey (r : GeneratedRecipe) : String :=
  String.intercalate ";"
    (sortStrings
      ((r.ingredients.yourIngredients ++ r.ingredients.extraIngredients).map
        amendedIngredientFragment))

/-- Signature formula with the amended ingredient fragment. -/
def amendedSignature (r : GeneratedRecipe) : String :=
  let prefs := canonicalPreferences r.preferences
  jsLowerStr r.title ++ "||" ++ prefs.cuisine ++ "||" ++ prefs.cookingTime ++ "||" ++
    prefs.dietPreferences ++ "||" ++ toString (r.cooksAmount.getD 0) ++ "||" ++
    amendedIngredientsKey r

/-- Recipe whose single ingredient carries the upper-case unit
abbreviation G: the code lower-cases the unit inside the fragment, the
claim formula keeps it verbatim. -/
def capitalUnitRecipe : GeneratedRecipe :=
  { tomatoPastaFirst with
    ingredients := ⟨[⟨some 200, some ⟨"Gramm", "G"⟩, "tomato"⟩], []⟩ }

/-- Counterexample for C4: on a recipe whose unit abbreviation is the
upper-case G, the implemented signature differs from the formula stated
in the claim, because `normalizeIngredient` passes the unit string
through the trim-and-lower-case helper while the claim takes the
abbreviation verbatim. -/
theorem claim_signature_formula_counterexample :
    buildRecipeSignature capitalUnitRecipe ≠ claimSignature capitalUnitRecipe := by
  decide

/-- C4 as amended: the computed signature equals the fixed-order
double-bar join of normalized title, canonical preference values, cooks
amount and the ingredient key, where the unit component of every
ingredient fragment is additionally trimmed and lower-cased. -/
theorem signature_equals_amended_formula (r : GeneratedRecipe) :
    buildRecipeSignature r = amendedSignature r :=
  rfl

/-- C5: canonicalization normalizes each axis with the trim-and-lower
helper (first array element, empty string for a missing value), keeps a
normalized value that belongs to the allowed set of the axis, and
replaces any other value by the axis default; each default is the
preferred value of its axis, which is itself allowed.  The final
conjunct is the example of the claim: an unknown cuisine such as FRENCH
canonicalizes to the default cuisine. -/
theorem canonicalization_normalizes_and_defaults (input : RawPreferences) :
    ((canonicalPreferences input).cuisine =
        if allowedCuisines.contains (jsLower input.cuisine) then jsLower input.cuisine
        else defaultCuisine) ∧
    ((canonicalPreferences input).cookingTime =
        if allowedCookingTimes.contains (jsLower input.cookingTime) then
          jsLower input.cookingTime
        else defaultCookingTime) ∧
    ((canonicalPreferences input).dietPreferences =
        if allowedDietPreferences.contains (jsLower input.dietPreferences) then
          jsLower input.dietPreferences
        else defaultDietPreference) ∧
    (∀ s, jsLower (.str s) = jsToLower (jsTrim s)) ∧
    (∀ l, jsLower (.arr l) = jsLowerStr (l.head?.getD "")) ∧
    jsLower .missing = "" ∧
    defaultCuisine = "fusion" ∧ allowedCuisines.contains "fusion" = true ∧
    defaultCookingTime = "quick" ∧ allowedCookingTimes.contains "quick" = true ∧
    defaultDietPreference = "no preferences" ∧
    allowedDietPreferences.contains "no preferences" = true ∧
    (canonicalPreferences ⟨.str "FRENCH", .missing, .missing⟩).cuisine = defaultCuisine :=
  ⟨rfl, rfl, rfl, fun _ => rfl, fun _ => rfl, rfl, by decide, by decide, by decide,
    by decide, by decide, by decide, by decide⟩

/-!
Content equality of recipes and evaluation lemmas for the stateful
operations.
-/

/-- Two recipes are content-equal when they agree on every content field
(title, timing texts, nutrition, preferences, cooks amount, ingredient
lists, directions) and carry the same cached signature; the identity and
counter fields `id`, `likes`, `isSeedRecipe` and `createdAt` are free. -/
def ContentEqual (a b : GeneratedRecipe) : Prop :=
  a.title = b.title ∧ a.cookingTimeText = b.cookingTimeText ∧
  a.cookingTimeMinutes = b.cookingTimeMinutes ∧
  a.nutritionalInformation = b.nutritionalInformation ∧
  a.preferences = b.preferences ∧ a.cooksAmount = b.cooksAmount ∧
  a.ingredients = b.ingredients ∧ a.directions = b.directions ∧
  a.recipeSignature = b.recipeSignature

instance (a b : GeneratedRecipe) : Decidable (ContentEqual a b) := by
  unfold ContentEqual
  infer_instance

/-- Content-equal recipes produce the same computed signature. -/
theorem buildRecipeSignature_of_contentEqual {a b : GeneratedRecipe}
    (h : ContentEqual a b) : buildRecipeSignature a = buildRecipeSignature b := by
  obtain ⟨ht, -, -, -, hp, hc, hi, -, -⟩ := h
  exact buildRecipeSignature_eq_of (by rw [ht]) (by rw [hp]) (by rw [hp]) (by rw [hp])
    hc (by rw [hi])

/-- Content-equal recipes resolve to the same signature string in
`getOrCreateSignature`. -/
theorem getOrCreateSignature_fst_congr {a b : GeneratedRecipe}
    (h : ContentEqual a b) :
    (getOrCreateSignature a).1 = (getOrCreateSignature b).1 := by
  have hs : a.recipeSignature = b.recipeSignature := h.2.2.2.2.2.2.2.2
  simp only [getOrCreateSignature, hs]
  split_ifs
  · rfl
  · exact buildRecipeSignature_of_contentEqual h

/-- The recipe handed back by `getOrCreateSignature` differs from the
input at most in the cached signature field. -/
theorem getOrCreateSignature_snd_frame (r : GeneratedRecipe) :
    (getOrCreateSignature r).2 = r ∨
      (getOrCreateSignature r).2 = { r with recipeSignature := some (buildRecipeSignature r) } := by
  simp only [getOrCreateSignature]
  split_ifs
  · exact Or.inl rfl
  · exact Or.inr rfl

/-- Evaluation of `ensureRecipeInCookbook` when the signature lookup
finds a document. -/
theorem ensureRecipeInCookbook_found {r : GeneratedRecipe} {st : RecipeStore}
    {docId : String} {p : RecipePayload} (opts : Option UpsertOptions)
    (hfind : findBySignature st (getOrCreateSignature r).1 = some (docId, p)) :
    ensureRecipeInCookbook r opts st =
      { out :=
          { (getOrCreateSignature r).2 with
            id := some (p.id.getD docId)
            recipeSignature := some (getOrCreateSignature r).1
            likes := some (p.likes.getD 0) }
        recipeAfter := (getOrCreateSignature r).2
        store := st } := by
  simp only [ensureRecipeInCookbook, hfind]

/-- Evaluation of `ensureRecipeInCookbook` when the signature lookup
finds nothing. -/
theorem ensureRecipeInCookbook_notFound {r : GeneratedRecipe} {st : RecipeStore}
    (opts : Option UpsertOptions)
    (hfind : findBySignature st (getOrCreateSignature r).1 = none) :
    ensureRecipeInCookbook r opts st =
      { out :=
          { (getOrCreateSignature r).2 with
            id := some (freshId st)
            recipeSignature := some (getOrCreateSignature r).1
            likes := some (r.likes.getD 0) }
        recipeAfter := (getOrCreateSignature r).2
        store :=
          { docs := st.docs ++
              [(freshId st,
                buildRecipePayload (getOrCreateSignature r).2 (getOrCreateSignature r).1
                  (r.likes.getD 0) opts st.clock)]
            nextId := st.nextId + 1
            clock := st.clock + 1 } } := by
  simp only [ensureRecipeInCookbook, hfind, createRecipeDoc]

/-- Evaluation of `updateLikesForRecipe` when the signature lookup finds
a document. -/
theorem updateLikesForRecipe_found {r : GeneratedRecipe} {isFavorite : Bool}
    {st : RecipeStore} {docId : String} {p : RecipePayload}
    (hfind : findBySignature st (getOrCreateSignature r).1 = some (docId, p)) :
    updateLikesForRecipe r isFavorite st =
      { likes := max (p.likes.getD 0 + likesDelta isFavorite) 0
        recipeAfter := (getOrCreateSignature r).2
        store := incrementLikes st (p.id.getD docId) (likesDelta isFavorite) } := by
  simp only [updateLikesForRecipe, hfind, updateExistingLikes]

/-- Evaluation of `updateLikesForRecipe` when the signature lookup finds
nothing. -/
theorem updateLikesForRecipe_notFound {r : GeneratedRecipe} {isFavorite : Bool}
    {st : RecipeStore}
    (hfind : findBySignature st (getOrCreateSignature r).1 = none) :
    updateLikesForRecipe r isFavorite st =
      { likes := if isFavorite then 1 else 0
        recipeAfter := { (getOrCreateSignature r).2 with id := some (freshId st) }
        store :=
          { docs := st.docs ++
              [(freshId st,
                buildRecipePayload (getOrCreateSignature r).2 (getOrCreateSignature r).1
                  (if isFavorite then 1 else 0) (some { isSeed := some false }) st.clock)]
            nextId := st.nextId + 1
            clock := st.clock + 1 } } := by
  simp only [updateLikesForRecipe, hfind, createLikedRecipe, createRecipeDoc]

/-- Overlaying id, signature and likes erases the only field in which
the recipe returned by `getOrCreateSignature` can differ from its
input. -/
theorem overlay_getOrCreate_eq (r : GeneratedRecipe) (i s : Option String) (l : Option Int) :
    ({ (getOrCreateSignature r).2 with id := i, recipeSignature := s, likes := l }
        : GeneratedRecipe)
      = { r with id := i, recipeSignature := s, likes := l } := by
  rcases getOrCreateSignature_snd_frame r with hr | hr <;> rw [hr]

/-- Appending a document whose signature matches makes the lookup return
it, provided the lookup found nothing before. -/
theorem findBySignature_append_single {st : RecipeStore} {s : String}
    (d : String × RecipePayload) (n c : Nat)
    (h : findBySignature st s = none) (hd : d.2.recipeSignature = s) :
    findBySignature ⟨st.docs ++ [d], n, c⟩ s = some d := by
  unfold findBySignature at h ⊢
  rw [List.find?_append, h]
  simp [List.find?, hd]

/-- C2: calling `ensureRecipeInCookbook`, then calling it again with a
content-equal recipe, yields the same id and the same signature both
times; the second call leaves the store untouched (no new document, no
change to the stored record), and its return value is the incoming
recipe overlaid with the existing document id, the signature, and the
existing likes value defaulted to 0. -/
theorem ensure_upsert_idempotent
    (r₁ r₂ : GeneratedRecipe) (opts₁ opts₂ : Option UpsertOptions) (st : RecipeStore)
    (h : ContentEqual r₁ r₂) :
    (ensureRecipeInCookbook r₂ opts₂ (ensureRecipeInCookbook r₁ opts₁ st).store).store
        = (ensureRecipeInCookbook r₁ opts₁ st).store ∧
    (ensureRecipeInCookbook r₂ opts₂ (ensureRecipeInCookbook r₁ opts₁ st).store).out.id
        = (ensureRecipeInCookbook r₁ opts₁ st).out.id ∧
    (ensureRecipeInCookbook r₂ opts₂ (ensureRecipeInCookbook r₁ opts₁ st).store).out.recipeSignature
        = (ensureRecipeInCookbook r₁ opts₁ st).out.recipeSignature ∧
    ∃ docId p,
      findBySignature (ensureRecipeInCookbook r₁ opts₁ st).store
          (getOrCreateSignature r₂).1 = some (docId, p) ∧
      (ensureRecipeInCookbook r₂ opts₂ (ensureRecipeInCookbook r₁ opts₁ st).store).out
          = { r₂ with
              id := some (p.id.getD docId)
              recipeSignature := some ((getOrCreateSignature r₂).1)
              likes := some (p.likes.getD 0) } := by
  have hsig : (getOrCreateSignature r₂).1 = (getOrCreateSignature r₁).1 :=
    (getOrCreateSignature_fst_congr h).symm
  rcases hfind : findBySignature st (getOrCreateSignature r₁).1 with _ | ⟨docId, p⟩
  · -- first call creates a document, the second call finds it
    have he₁ := ensureRecipeInCookbook_notFound opts₁ hfind
    have hfind₂ :
        findBySignature (ensureRecipeInCookbook r₁ opts₁ st).store
          (getOrCreateSignature r₂).1 =
          some (freshId st,
            buildRecipePayload (getOrCreateSignature r₁).2 (getOrCreateSignature r₁).1
              (r₁.likes.getD 0) opts₁ st.clock) := by
      rw [he₁, hsig]
      exact findBySignature_append_single _ _ _ hfind rfl
    have he₂ := ensureRecipeInCookbook_found opts₂ hfind₂
    refine ⟨by rw [he₂, he₁], ?_, ?_, ?_⟩
    · rw [he₂, he₁]
      simp [buildRecipePayload]
    · rw [he₂, he₁, hsig]
    · exact ⟨_, _, hfind₂, by rw [he₂]; exact overlay_getOrCreate_eq r₂ _ _ _⟩
  · -- both calls find the same document
    have he₁ := ensureRecipeInCookbook_found opts₁ hfind
    have hfind₂ :
        findBySignature (ensureRecipeInCookbook r₁ opts₁ st).store
          (getOrCreateSignature r₂).1 = some (docId, p) := by
      rw [he₁, hsig]
      exact hfind
    have he₂ := ensureRecipeInCookbook_found opts₂ hfind₂
    refine ⟨by rw [he₂, he₁], by rw [he₂, he₁], by rw [he₂, he₁, hsig], ?_⟩
    exact ⟨_, _, hfind₂, by rw [he₂]; exact overlay_getOrCreate_eq r₂ _ _ _⟩

/-- Recipe content-equal to the first Tomato Pasta recipe but carrying a
different id and likes count. -/
def tomatoPastaRelisted : GeneratedRecipe :=
  { tomatoPastaFirst with id := some "staleDoc", likes := some 5 }

/-- Witness for C2: re-submitting a content-equal copy of the Tomato
Pasta recipe to an initially empty store reuses the first document. -/
theorem ensure_upsert_idempotent_witness :
    ContentEqual tomatoPastaFirst tomatoPastaRelisted ∧
    ((ensureRecipeInCookbook tomatoPastaRelisted none
          (ensureRecipeInCookbook tomatoPastaFirst none emptyStore).store).store
        = (ensureRecipeInCookbook tomatoPastaFirst none emptyStore).store ∧
      (ensureRecipeInCookbook tomatoPastaRelisted none
          (ensureRecipeInCookbook tomatoPastaFirst none emptyStore).store).out.id
        = (ensureRecipeInCookbook tomatoPastaFirst none emptyStore).out.id ∧
      (ensureRecipeInCookbook tomatoPastaRelisted none
          (ensureRecipeInCookbook tomatoPastaFirst none emptyStore).store).out.recipeSignature
        = (ensureRecipeInCookbook tomatoPastaFirst none emptyStore).out.recipeSignature ∧
      ∃ docId p,
        findBySignature (ensureRecipeInCookbook tomatoPastaFirst none emptyStore).store
            (getOrCreateSignature tomatoPastaRelisted).1 = some (docId, p) ∧
        (ensureRecipeInCookbook tomatoPastaRelisted none
            (ensureRecipeInCookbook tomatoPastaFirst none emptyStore).store).out
          = { tomatoPastaRelisted with
              id := some (p.id.getD docId)
              recipeSignature := some ((getOrCreateSignature tomatoPastaRelisted).1)
              likes := some (p.likes.getD 0) }) :=
  ⟨by decide,
    ensure_upsert_idempotent tomatoPastaFirst tomatoPastaRelisted none none emptyStore
      (by decide)⟩

/-- Counterexample for C3: starting from an empty store, syncing the
Tomato Pasta recipe creates its record with likes 0; a single unlike
then reports the clamped advisory value 0, but the store counter is
decremented to -1 by the unconditional atomic increment, and
`getRecipeById` hands that negative likes value straight back to the
caller. -/
theorem likes_negative_readback_counterexample :
    (ensureRecipeInCookbook tomatoPastaFirst none emptyStore).out.id = some "doc0" ∧
    (ensureRecipeInCookbook tomatoPastaFirst none emptyStore).out.likes = some 0 ∧
    (updateLikesForRecipe (ensureRecipeInCookbook tomatoPastaFirst none emptyStore).out
        false (ensureRecipeInCookbook tomatoPastaFirst none emptyStore).store).likes = 0 ∧
    ((getRecipeById
        (updateLikesForRecipe (ensureRecipeInCookbook tomatoPastaFirst none emptyStore).out
          false (ensureRecipeInCookbook tomatoPastaFirst none emptyStore).store).store
        "doc0").map (fun rec => rec.likes)) = some (some (-1)) :=
  ⟨by decide, by decide, by decide, by decide⟩

/-- C3 as amended: the advisory likes value returned by
`updateLikesForRecipe` is never negative (it is clamped at 0 in the
existing-record branch and is 0 or 1 in the create branch), and in
particular an unlike of a record whose stored likes value reads as 0
reports 0.  The stored counter itself, as read back by `getRecipeById`
or by the found branch of `ensureRecipeInCookbook`, can however be
negative after a net-negative unlike sequence (see the
counterexample). -/
theorem updateLikes_advisory_value_nonneg
    (r : GeneratedRecipe) (isFavorite : Bool) (st : RecipeStore) :
    0 ≤ (updateLikesForRecipe r isFavorite st).likes := by
  rcases hfind : findBySignature st (getOrCreateSignature r).1 with _ | ⟨docId, p⟩
  · rw [updateLikesForRecipe_notFound hfind]
    dsimp only
    split_ifs <;> norm_num
  · rw [updateLikesForRecipe_found hfind]
    exact le_max_right _ _

/-- C7: when the signature of a recipe has no record in the store,
`updateLikesForRecipe` appends exactly one new document whose likes
field is 1 when favoriting and 0 when unfavoriting, assigns the new
document id to the caller recipe object, and returns that initial likes
value. -/
theorem updateLikes_creates_missing_record
    (r : GeneratedRecipe) (isFavorite : Bool) (st : RecipeStore)
    (hfind : findBySignature st (getOrCreateSignature r).1 = none) :
    ∃ p : RecipePayload,
      (updateLikesForRecipe r isFavorite st).store.docs = st.docs ++ [(freshId st, p)] ∧
      p.likes = some (if isFavorite then 1 else 0) ∧
      (updateLikesForRecipe r isFavorite st).likes = (if isFavorite then 1 else 0) ∧
      (updateLikesForRecipe r isFavorite st).recipeAfter.id = some (freshId st) := by
  rw [updateLikesForRecipe_notFound hfind]
  exact ⟨_, rfl, rfl, rfl, rfl⟩

/-- Witness for C7: favoriting the never-before-seen Tomato Pasta recipe
on the empty store creates one record with likes 1 and assigns the new
document id. -/
theorem updateLikes_creates_missing_record_witness :
    findBySignature emptyStore (getOrCreateSignature tomatoPastaFirst).1 = none ∧
    ∃ p : RecipePayload,
      (updateLikesForRecipe tomatoPastaFirst true emptyStore).store.docs
          = emptyStore.docs ++ [(freshId emptyStore, p)] ∧
      p.likes = some (if true then 1 else 0) ∧
      (updateLikesForRecipe tomatoPastaFirst true emptyStore).likes
          = (if true then 1 else 0) ∧
      (updateLikesForRecipe tomatoPastaFirst true emptyStore).recipeAfter.id
          = some (freshId emptyStore) :=
  ⟨rfl, updateLikes_creates_missing_record tomatoPastaFirst true emptyStore rfl⟩

/-- Evaluation of `getOrCreateSignature` on a recipe without a cached
signature. -/
theorem getOrCreateSignature_of_none {r : GeneratedRecipe}
    (h : r.recipeSignature = none) :
    getOrCreateSignature r =
      (buildRecipeSignature r, { r with recipeSignature := some (buildRecipeSignature r) }) := by
  simp [getOrCreateSignature, h]

/-- C6: `syncGeneratedRecipes` processes its input sequentially, calling
`ensureRecipeInCookbook` once per item with the seed flag false and
collecting the results in input order (first two conjuncts), and on a
batch of three fresh recipes in which the first and third are content
duplicates while the second has a different signature, the first and
third results share one document id, the second gets another, and
exactly two documents exist in the initially empty store afterwards. -/
theorem sync_sequential_and_batch_dedup :
    (∀ (r : GeneratedRecipe) (rs : List GeneratedRecipe) (st : RecipeStore),
      syncGeneratedRecipes (r :: rs) st =
        ((ensureRecipeInCookbook r (some { isSeed := some false }) st).out ::
            (syncGeneratedRecipes rs
              (ensureRecipeInCookbook r (some { isSeed := some false }) st).store).1,
          (ensureRecipeInCookbook r (some { isSeed := some false }) st).recipeAfter ::
            (syncGeneratedRecipes rs
              (ensureRecipeInCookbook r (some { isSeed := some false }) st).store).2.1,
          (syncGeneratedRecipes rs
            (ensureRecipeInCookbook r (some { isSeed := some false }) st).store).2.2)) ∧
    (∀ (rs : List GeneratedRecipe) (st : RecipeStore),
      (syncGeneratedRecipes rs st).1.length = rs.length) ∧
    (∀ r₁ r₂ r₃ : GeneratedRecipe,
      r₁.recipeSignature = none →
      r₂.recipeSignature = none →
      ContentEqual r₁ r₃ →
      buildRecipeSignature r₂ ≠ buildRecipeSignature r₁ →
      ∃ o₁ o₂ o₃,
        (syncGeneratedRecipes [r₁, r₂, r₃] emptyStore).1 = [o₁, o₂, o₃] ∧
        o₁.id = o₃.id ∧ o₁.id ≠ o₂.id ∧
        (syncGeneratedRecipes [r₁, r₂, r₃] emptyStore).2.2.docs.length = 2) := by
  refine ⟨fun r rs st => rfl, ?_, ?_⟩
  · intro rs
    induction rs with
    | nil => intro st; rfl
    | cons r rs ih =>
      intro st
      simp only [syncGeneratedRecipes, List.length_cons, ih]
  · intro r₁ r₂ r₃ h₁ h₂ h₁₃ hne
    have hg₁ := getOrCreateSignature_of_none h₁
    have hg₂ := getOrCreateSignature_of_none h₂
    have h₃ : r₃.recipeSignature = none := h₁₃.2.2.2.2.2.2.2.2 ▸ h₁
    have hg₃ := getOrCreateSignature_of_none h₃
    have hs₃ : buildRecipeSignature r₃ = buildRecipeSignature r₁ :=
      (buildRecipeSignature_of_contentEqual h₁₃).symm
    have hne' : buildRecipeSignature r₁ ≠ buildRecipeSignature r₂ := fun hh => hne hh.symm
    have hfind₁ :
        findBySignature emptyStore (getOrCreateSignature r₁).1 = none := rfl
    have he₁ := ensureRecipeInCookbook_notFound
      (some { isSeed := some false }) hfind₁
    have hfind₂ :
        findBySignature
          (ensureRecipeInCookbook r₁ (some { isSeed := some false }) emptyStore).store
          (getOrCreateSignature r₂).1 = none := by
      rw [he₁]
      simp [findBySignature, emptyStore, List.find?, buildRecipePayload, hg₁, hg₂, hne']
    have he₂ := ensureRecipeInCookbook_notFound
      (some { isSeed := some false }) hfind₂
    have hfind₃ :
        findBySignature
          (ensureRecipeInCookbook r₂ (some { isSeed := some false })
            (ensureRecipeInCookbook r₁ (some { isSeed := some false }) emptyStore).store).store
          (getOrCreateSignature r₃).1 =
          some (freshId emptyStore,
            buildRecipePayload (getOrCreateSignature r₁).2 (getOrCreateSignature r₁).1
              (r₁.likes.getD 0) (some { isSeed := some false }) emptyStore.clock) := by
      rw [he₂, he₁]
      simp [findBySignature, emptyStore, List.find?, buildRecipePayload, hg₁, hg₃, hs₃]
    have he₃ := ensureRecipeInCookbook_found
      (some { isSeed := some false }) hfind₃
    refine ⟨_, _, _, rfl, ?_, ?_, ?_⟩
    · show (ensureRecipeInCookbook r₁ (some { isSeed := some false }) emptyStore).out.id
        = (ensureRecipeInCookbook r₃ (some { isSeed := some false }) _).out.id
      rw [he₃, he₁]
      simp [buildRecipePayload]
    · show (ensureRecipeInCookbook r₁ (some { isSeed := some false }) emptyStore).out.id
        ≠ (ensureRecipeInCookbook r₂ (some { isSeed := some false }) _).out.id
      rw [he₂, he₁]
      simp only [freshId, emptyStore]
      decide
    · show (ensureRecipeInCookbook r₃ (some { isSeed := some false }) _).store.docs.length = 2
      rw [he₃, he₂, he₁]
      simp [emptyStore]

/-- The computed signature always contains the double-bar separators, so
it is never the empty string (and in particular it is truthy for the
cache check of `getOrCreateSignature`). -/
theorem buildRecipeSignature_ne_empty (r : GeneratedRecipe) :
    buildRecipeSignature r ≠ "" := by
  intro h
  apply congrArg String.data at h
  simp [buildRecipeSignature, String.data_append] at h

/-- Evaluation of `getOrCreateSignature` on a recipe with a truthy
cached signature. -/
theorem getOrCreateSignature_of_some {r : GeneratedRecipe} {s : String}
    (h : r.recipeSignature = some s) (hs : s ≠ "") :
    getOrCreateSignature r = (s, r) := by
  simp [getOrCreateSignature, h, hs]

/-- Evaluation of `getOrCreateSignature` on a recipe whose cached
signature is the empty string: the empty string is falsy, so the
signature is recomputed exactly as for an absent cache. -/
theorem getOrCreateSignature_of_emptyCache {r : GeneratedRecipe}
    (h : r.recipeSignature = some "") :
    getOrCreateSignature r =
      (buildRecipeSignature r, { r with recipeSignature := some (buildRecipeSignature r) }) := by
  simp [getOrCreateSignature, h]

/-- The signature computation never reads the cached signature field. -/
theorem buildRecipeSignature_cache_irrelevant (r : GeneratedRecipe) (s : Option String) :
    buildRecipeSignature { r with recipeSignature := s } = buildRecipeSignature r :=
  rfl

/-- The caller recipe object after `ensureRecipeInCookbook` is exactly
the object produced by `getOrCreateSignature`. -/
theorem ensure_recipeAfter (r : GeneratedRecipe) (opts : Option UpsertOptions)
    (st : RecipeStore) :
    (ensureRecipeInCookbook r opts st).recipeAfter = (getOrCreateSignature r).2 := by
  rcases hfind : findBySignature st (getOrCreateSignature r).1 with _ | ⟨docId, p⟩
  · rw [ensureRecipeInCookbook_notFound opts hfind]
  · rw [ensureRecipeInCookbook_found opts hfind]

/-- Recipe with a different title, hence a different signature, used as
the distinct middle element of the Scenario B batch. -/
def gardenSalad : GeneratedRecipe :=
  { tomatoPastaFirst with title := "Garden Salad" }

/-- Witness for C6: the batch of Scenario B with the Tomato Pasta
recipe, a Garden Salad recipe, and a content-equal copy of the first:
items one and three share a document id, item two gets a different one,
and two documents exist afterwards. -/
theorem sync_sequential_and_batch_dedup_witness :
    (tomatoPastaFirst.recipeSignature = none ∧
      gardenSalad.recipeSignature = none ∧
      ContentEqual tomatoPastaFirst tomatoPastaRelisted ∧
      buildRecipeSignature gardenSalad ≠ buildRecipeSignature tomatoPastaFirst) ∧
    ∃ o₁ o₂ o₃,
      (syncGeneratedRecipes [tomatoPastaFirst, gardenSalad, tomatoPastaRelisted]
          emptyStore).1 = [o₁, o₂, o₃] ∧
      o₁.id = o₃.id ∧ o₁.id ≠ o₂.id ∧
      (syncGeneratedRecipes [tomatoPastaFirst, gardenSalad, tomatoPastaRelisted]
          emptyStore).2.2.docs.length = 2 :=
  ⟨⟨rfl, rfl, by decide, by decide⟩,
    sync_sequential_and_batch_dedup.2.2 tomatoPastaFirst gardenSalad tomatoPastaRelisted
      rfl rfl (by decide) (by decide)⟩

/-!
The remaining pieces of the firebase recipe service needed for claim C9:
its signature pipeline works on raw preferences without canonicalization
and keeps the unit string verbatim, and its `ensureRecipeInCookbook`
stores the spread-based payload. -/

/-- Embedding of `normalizeIngredient` of the firebase recipe service:
the unit string is NOT lower-cased there. -/
def fbNormalizeIngredient (i : RecipeIngredient) : String :=
  jsLowerStr i.ingredient ++ "|" ++ toString (i.servingSize.getD 0) ++ "|" ++
    ingredientUnitString i.unit

/-- Embedding of `buildIngredientsKey` of the firebase recipe service. -/
def fbBuildIngredientsKey (r : GeneratedRecipe) : String :=
  String.intercalate ";"
    (sortStrings
      ((r.ingredients.yourIngredients ++ r.ingredients.extraIngredients).map
        fbNormalizeIngredient))

/-- Embedding of `buildRecipeSignature` of the firebase recipe service:
title and raw preference values through `safeLower`, no
canonicalization. -/
def fbBuildRecipeSignature (r : GeneratedRecipe) : String :=
  jsLowerStr r.title ++ "||" ++ jsLower r.preferences.cuisine ++ "||" ++
    jsLower r.preferences.cookingTime ++ "||" ++ jsLower r.preferences.dietPreferences ++
    "||" ++ toString (r.cooksAmount.getD 0) ++ "||" ++ fbBuildIngredientsKey r

/-- Embedding of `getOrCreateSignature` of the firebase recipe service. -/
def fbGetOrCreateSignature (r : GeneratedRecipe) : String × GeneratedRecipe :=
  let cached := r.recipeSignature.getD ""
  if cached ≠ "" then (cached, r)
  else
    let s := fbBuildRecipeSignature r
    (s, { r with recipeSignature := some s })

/-- Embedding of `ensureRecipeInCookbook` of the firebase recipe
service: identical control flow, but the created document stores the
spread-based payload. -/
def fbEnsureRecipeInCookbook (r : GeneratedRecipe) (opts : Option UpsertOptions)
    (st : RecipeStore) : EnsureResult :=
  let signature := (fbGetOrCreateSignature r).1
  let r1 := (fbGetOrCreateSignature r).2
  match findBySignature st signature with
  | some (docId, p) =>
    let existingId := p.id.getD docId
    let likes := p.likes.getD 0
    { out :=
        { r1 with
          id := some existingId
          recipeSignature := some signature
          likes := some likes }
      recipeAfter := r1
      store := st }
  | none =>
    let likes := r.likes.getD 0
    let docId := (fbCreateRecipeDoc r1 signature likes opts st).1
    let st1 := (fbCreateRecipeDoc r1 signature likes opts st).2
    { out :=
        { r1 with
          id := some docId
          recipeSignature := some signature
          likes := some likes }
      recipeAfter := r1
      store := st1 }

/-- Counterexample for C9: the firebase recipe service's not-found
branch stores the spread-based payload, so ensuring a recipe that
already carries an id (here the stale id `staleDoc`) creates a document
whose payload contains that id field. -/
theorem create_payload_contains_stale_id_counterexample :
    tomatoPastaRelisted.id = some "staleDoc" ∧
    ((fbEnsureRecipeInCookbook tomatoPastaRelisted none emptyStore).store.docs.map
        (fun d => d.2.id)) = [some "staleDoc"] :=
  ⟨rfl, by decide⟩

/-- C9 as amended: the explicit payload builder of the generate-recipe
service never emits an id field, while the spread-based builder of the
firebase recipe service copies whatever id the in-memory recipe carries
into the payload (none when the recipe has none). -/
theorem create_payload_id_field
    (r : GeneratedRecipe) (signature : String) (likes : Int)
    (opts : Option UpsertOptions) (now : Nat) :
    (buildRecipePayload r signature likes opts now).id = none ∧
    (fbBuildRecipePayload r signature likes opts now).id = r.id :=
  ⟨rfl, rfl⟩

/-- C10: the engine mutates at most two fields of the caller recipe
object.  Conjuncts one to three describe `getOrCreateSignature`: it
writes the signature only when the cached one is absent (or the falsy
empty string, which the truthiness check treats as absent), it leaves a
recipe with a truthy cached signature untouched, and a repeated call
returns the identical cached string without recomputation or further
change.  Conjunct four: `ensureRecipeInCookbook` leaves the caller
object unchanged except possibly for the signature cache.  Conjunct
five: `syncGeneratedRecipes` does the same for every batch element.
Conjuncts six and seven: `updateLikesForRecipe` mutates only the
signature cache, plus the id field in its create branch alone. -/
theorem engine_frame_conditions :
    (∀ r : GeneratedRecipe, r.recipeSignature = none →
      getOrCreateSignature r =
        (buildRecipeSignature r, { r with recipeSignature := some (buildRecipeSignature r) })) ∧
    (∀ (r : GeneratedRecipe) (s : String), r.recipeSignature = some s → s ≠ "" →
      getOrCreateSignature r = (s, r)) ∧
    (∀ r : GeneratedRecipe,
      getOrCreateSignature (getOrCreateSignature r).2 =
        ((getOrCreateSignature r).1, (getOrCreateSignature r).2)) ∧
    (∀ (r : GeneratedRecipe) (opts : Option UpsertOptions) (st : RecipeStore),
      (ensureRecipeInCookbook r opts st).recipeAfter = r ∨
      (ensureRecipeInCookbook r opts st).recipeAfter =
        { r with recipeSignature := some (buildRecipeSignature r) }) ∧
    (∀ (rs : List GeneratedRecipe) (st : RecipeStore),
      (syncGeneratedRecipes rs st).2.1 = rs.map (fun r => (getOrCreateSignature r).2)) ∧
    (∀ (r : GeneratedRecipe) (isFavorite : Bool) (st : RecipeStore)
        (docId : String) (p : RecipePayload),
      findBySignature st (getOrCreateSignature r).1 = some (docId, p) →
      (updateLikesForRecipe r isFavorite st).recipeAfter = (getOrCreateSignature r).2) ∧
    (∀ (r : GeneratedRecipe) (isFavorite : Bool) (st : RecipeStore),
      findBySignature st (getOrCreateSignature r).1 = none →
      (updateLikesForRecipe r isFavorite st).recipeAfter =
        { (getOrCreateSignature r).2 with id := some (freshId st) }) := by
  refine ⟨fun r h => getOrCreateSignature_of_none h,
    fun r s h hs => getOrCreateSignature_of_some h hs, ?_, ?_, ?_, ?_, ?_⟩
  · intro r
    rcases hr : r.recipeSignature with _ | s
    · rw [getOrCreateSignature_of_none hr]
      exact getOrCreateSignature_of_some rfl (buildRecipeSignature_ne_empty r)
    · by_cases hs : s = ""
      · subst hs
        rw [getOrCreateSignature_of_emptyCache hr]
        exact getOrCreateSignature_of_some rfl (buildRecipeSignature_ne_empty r)
      · rw [getOrCreateSignature_of_some hr hs]
        exact getOrCreateSignature_of_some hr hs
  · intro r opts st
    rw [ensure_recipeAfter]
    exact getOrCreateSignature_snd_frame r
  · intro rs
    induction rs with
    | nil => intro st; rfl
    | cons r rs ih =>
      intro st
      simp only [syncGeneratedRecipes, List.map_cons, ih, ensure_recipeAfter]
  · intro r isFavorite st docId p hfind
    rw [updateLikesForRecipe_found hfind]
  · intro r isFavorite st hfind
    rw [updateLikesForRecipe_notFound hfind]

/-- Recipe carrying a truthy cached signature, used by the C10
witness. -/
def cachedSignatureRecipe : GeneratedRecipe :=
  { tomatoPastaFirst with recipeSignature := some "cachedValue" }

/-- Witness for C10: a recipe with the truthy cached signature
`cachedValue` is returned untouched together with the cached string. -/
theorem engine_frame_conditions_witness :
    (cachedSignatureRecipe.recipeSignature = some "cachedValue" ∧ "cachedValue" ≠ "") ∧
    getOrCreateSignature cachedSignatureRecipe = ("cachedValue", cachedSignatureRecipe) :=
  ⟨⟨rfl, by decide⟩,
    engine_frame_conditions.2.1 cachedSignatureRecipe "cachedValue" rfl (by decide)⟩
